import Mathlib

/-!
Verification of the HTTP request-lifecycle core of `swe-be-mono`
(package `pkg/httpkit`): the request/response recorder (`httplog.go`),
the resolved-error marker (`httperr.go`), the middleware composer
(`httpmid.go`) and the error-aware router (`ServeMux`).

The Go code is embedded shallowly: byte slices become `List Nat`,
Go `int` values (status codes, unix-nano timestamps) become `Int`,
Go `(T, error)` returns become pairs with `Option GoError`, and the
mutation of the recorder / of the underlying `http.ResponseWriter`
becomes explicit state passing.  The underlying response writer is
modelled as an event sink that records, in order, every forwarded
header write and body write (like `httptest.ResponseRecorder`, it
always succeeds).
-/

/-- Model of a Go `error` value as used by this package.
`base` is an error with no `Unwrap` method (e.g. `errors.New`);
`resolved` is `*httpkit.ResolvedError` (httperr.go lines 6-8), which
carries the original error in its exported field `Err`;
`wrapped` is an error that does declare `Unwrap() error`
(e.g. one built by `fmt.Errorf` with the `%w` verb). -/
inductive GoError where
  | base (m : String)
  | resolved (err : GoError)
  | wrapped (m : String) (err : GoError)
deriving DecidableEq

/-- Model of the `Error() string` method.  For `*ResolvedError` the source
is `func (e *ResolvedError) Error() string { return e.Err.Error() }`
(httperr.go line 16). -/
def GoError.msg : GoError → String
  | .base m => m
  | .resolved err => err.msg
  | .wrapped m _ => m

/-- Source function `ResolveError` (httperr.go lines 11-13):
it returns `&ResolvedError{Err: err}`. -/
def ResolveError (err : GoError) : GoError := .resolved err

/-- Model of the standard-library `errors.Unwrap`: it returns the result
of the `Unwrap() error` method when the dynamic type declares one, and
nil otherwise.  `*ResolvedError` declares only `Error()` (httperr.go
declares no `Unwrap` method), so it unwraps to `none`; `base` errors
have no `Unwrap` method either; `wrapped` errors unwrap to the wrapped
error. -/
def errorsUnwrap : GoError → Option GoError
  | .base _ => none
  | .resolved _ => none
  | .wrapped _ err => some err

/-- The standard error chain of an error: the error itself followed by
the chain of its `errorsUnwrap` results.  `errors.Is(e, target)` with
plain targets is membership of `target` in this list. -/
def unwrapChain : GoError → List GoError
  | .base m => [.base m]
  | .resolved err => [.resolved err]
  | .wrapped m err => .wrapped m err :: unwrapChain err

/-- Model of `errors.As(err, &target)` with `target : *ResolvedError`
(as the repository uses it in `httperr_test.go` and
`internal/httpmiddleware/cors.go`): walk the standard error chain and,
at the first `*ResolvedError` found, yield its exported `Err` field. -/
def asResolvedError : GoError → Option GoError
  | .base _ => none
  | .resolved err => some err
  | .wrapped _ err => asResolvedError err

/-- An event forwarded to the real response sink: a status-line write
(`WriteHeader`) or a body write (`Write`). -/
inductive SinkEvent where
  | header (code : Int)
  | body (bytes : List Nat)
deriving DecidableEq

/-- The underlying `http.ResponseWriter`, modelled as the ordered list of
events forwarded to it. -/
structure Sink where
  events : List SinkEvent
deriving DecidableEq

/-- Forwarding `WriteHeader(code)` to the underlying writer. -/
def Sink.writeHeader (s : Sink) (code : Int) : Sink :=
  ⟨s.events ++ [.header code]⟩

/-- Forwarding `Write(b)` to the underlying writer.  The modelled writer
is a reliable recorder: it accepts all bytes and returns
`(len(b), nil)`, as `httptest.ResponseRecorder` does. -/
def Sink.write (s : Sink) (b : List Nat) : Sink × Nat × Option GoError :=
  (⟨s.events ++ [.body b]⟩, b.length, none)

/-- An incoming `*http.Request`, reduced to the fields the embedded code
inspects (the default handlers print method and URL path). -/
structure Req where
  method : String
  path : String
deriving DecidableEq

/-- Write method of a `bytebufferpool.ByteBuffer`, from the external
dependency `github.com/valyala/bytebufferpool`: `Write` appends `p` to
the buffer and returns `(len(p), nil)`; it never fails. -/
def byteBufferWrite (buf : List Nat) (p : List Nat) :
    List Nat × Nat × Option GoError :=
  (buf ++ p, p.length, none)

/-- Result of `bytebufferpool.Get()`: the pool resets every buffer when
it is put back, so a checked-out buffer is always empty. -/
def bytebufferpoolGet : List Nat := []

/-- Source structure `LogEntry` (httplog.go lines 20-32).  The two
buffers hold the recorded bytes of the `bytebufferpool.ByteBuffer`
values `reqBody` and `resBody`. -/
structure LogEntry where
  StatusCode : Int
  RespondedAt : Int
  RequestedAt : Int
  DiscardReqBody : Bool
  DiscardResBody : Bool
  reqBody : List Nat
  resBody : List Nat
deriving DecidableEq

/-- Accessor `LogEntry.ReqBody` (httplog.go line 35), observed through
`Bytes()` of the returned buffer. -/
def LogEntry.ReqBody (l : LogEntry) : List Nat := l.reqBody

/-- Accessor `LogEntry.ResBody` (httplog.go line 38), observed through
`Bytes()` of the returned buffer. -/
def LogEntry.ResBody (l : LogEntry) : List Nat := l.resBody

/-- Source structure `logEntryRecorder` (httplog.go lines 103-107): the
embedded underlying `http.ResponseWriter` and the `*LogEntry`.  The
`req io.ReadCloser` field is not part of the byte-level state: the
result of each underlying `Read` call is passed to the `Read` model
explicitly. -/
structure logEntryRecorder where
  log : LogEntry
  sink : Sink
deriving DecidableEq

/-- Source method `logEntryRecorder.WriteHeader` (httplog.go lines
134-144).  `now` is the value `time.Now().UnixNano()` would produce at
the call. -/
def logEntryRecorder.WriteHeader (l : logEntryRecorder) (code : Int)
    (now : Int) : logEntryRecorder :=
  if l.log.RespondedAt > 0 then
    l
  else
    { l with
      sink := l.sink.writeHeader code
      log := { l.log with StatusCode := code, RespondedAt := now } }

/-- Source method `logEntryRecorder.Write` (httplog.go lines 146-157).
If not committed yet it first commits with status 200, then forwards
the bytes to the underlying writer, and then — when the code's guard
`!l.log.DiscardReqBody && err == nil` holds (note: the source tests
`DiscardReqBody` here, not `DiscardResBody`) — appends `b[:n]` to the
response-body buffer and returns that buffer write's result. -/
def logEntryRecorder.Write (l : logEntryRecorder) (b : List Nat)
    (now : Int) : logEntryRecorder × Nat × Option GoError :=
  let l := if l.log.RespondedAt ≤ 0 then l.WriteHeader 200 now else l
  let (sink, n, err) := l.sink.write b
  let l := { l with sink := sink }
  if !l.log.DiscardReqBody && err = none then
    let (buf, n2, err2) := byteBufferWrite l.log.resBody (b.take n)
    ({ l with log := { l.log with resBody := buf } }, n2, err2)
  else
    (l, n, err)

/-- Source method `logEntryRecorder.Read` (httplog.go lines 109-115).
The underlying `l.req.Read(p)` call is modelled by its outcome: it
filled `p[:n]` with `data` (so `n = data.length`) and returned error
`uerr`.  When the guard `!l.log.DiscardReqBody && n > 0` holds the
code replaces `(n, err)` with the request-body buffer append's
result. -/
def logEntryRecorder.Read (l : logEntryRecorder) (data : List Nat)
    (uerr : Option GoError) : logEntryRecorder × Nat × Option GoError :=
  let n := data.length
  if !l.log.DiscardReqBody && n > 0 then
    let (buf, n2, err2) := byteBufferWrite l.log.reqBody data
    ({ l with log := { l.log with reqBody := buf } }, n2, err2)
  else
    (l, n, uerr)

/-- Source function `newLogEntryRecorder` (httplog.go lines 75-87):
check a recorder out of the pool (here: an arbitrary stale recorder
left over from a previous request), install the new underlying writer,
and overwrite every mutable `LogEntry` field: status code and
committed timestamp to 0, both discard flags to false, both buffers
replaced by fresh cleared buffers from the byte-buffer pool, and the
received timestamp set to `now` (`time.Now().UnixNano()`). -/
def newLogEntryRecorder (stale : logEntryRecorder) (w : Sink)
    (now : Int) : logEntryRecorder :=
  { sink := w
    log := { stale.log with
      StatusCode := 0
      RespondedAt := 0
      DiscardReqBody := false
      DiscardResBody := false
      reqBody := bytebufferpoolGet
      resBody := bytebufferpoolGet
      RequestedAt := now } }

/-- A response writer as seen by `GetLogEntry` (httplog.go lines 55-67):
either the recorder itself, or a wrapper exposing
`Unwrap() http.ResponseWriter` (as `logEntryRecorder.Unwrap` at line
159 and the test's `rwWrapper` do), or a writer with neither shape. -/
inductive RespWriter where
  | plain (s : Sink)
  | recorder (rec : logEntryRecorder)
  | wrapper (inner : RespWriter)
deriving DecidableEq

/-- Source function `GetLogEntry` (httplog.go lines 55-67): loop over the
writer; a `*logEntryRecorder` yields `(t.log, true)`; a writer with an
`Unwrap() http.ResponseWriter` method is unwrapped and the loop
continues; anything else yields `(nil, false)`. -/
def GetLogEntry : RespWriter → Option LogEntry × Bool
  | .recorder rec => (some rec.log, true)
  | .wrapper inner => GetLogEntry inner
  | .plain _ => (none, false)

/-- Wrapping a response writer in `k` unwrap-capable layers. -/
def wrapLayers : Nat → RespWriter → RespWriter
  | 0, w => w
  | k + 1, w => .wrapper (wrapLayers k w)

/-- Whether the unwrap chain starting at a writer reaches a recorder. -/
def hasRecorderInChain : RespWriter → Bool
  | .recorder _ => true
  | .wrapper inner => hasRecorderInChain inner
  | .plain _ => false

/-- Source type `Handler` (httperr.go): `ServeHTTP` takes the response
sink and the request and returns an error; its writes to the sink are
modelled by returning the updated sink. -/
abbrev MuxHandler : Type := Sink → Req → Sink × Option GoError

/-- Source type `MuxMiddleware` (httpmid.go line 7). -/
abbrev MuxMiddleware : Type := MuxHandler → MuxHandler

/-- Source method `MuxMiddleware.Then` (httpmid.go line 11): `m.Then(h)`
is `m(h)`. -/
def MuxMiddleware.Then (m : MuxMiddleware) (h : MuxHandler) : MuxHandler :=
  m h

/-- Source type `http.Handler` as used by `NetMiddleware`: it writes to
the sink and returns nothing. -/
abbrev NetHandler : Type := Sink → Req → Sink

/-- Source type `NetMiddleware` (httpmid.go line 15). -/
abbrev NetMiddleware : Type := NetHandler → NetHandler

/-- Source method `NetMiddleware.Then` (httpmid.go line 19). -/
def NetMiddleware.Then (n : NetMiddleware) (h : NetHandler) : NetHandler :=
  n h

/-- The loop body of `reduceMuxMiddleware` (httpmid.go lines 43-45):
`for i := len(m)-1; i >= 0; i--: next = m[i].Then(next)`.  The loop
visits the middlewares from the last to the first, so it is the
left-to-right traversal of the reversed list with accumulator
`next`. -/
def reduceMuxLoop : List MuxMiddleware → MuxHandler → MuxHandler
  | [], next => next
  | m :: rest, next => reduceMuxLoop rest (m.Then next)

/-- Source function `reduceMuxMiddleware` (httpmid.go lines 41-48). -/
def reduceMuxMiddleware (middlewares : List MuxMiddleware) : MuxMiddleware :=
  fun next => reduceMuxLoop middlewares.reverse next

/-- The loop body of `reduceNetMiddleware` (httpmid.go lines 52-54). -/
def reduceNetLoop : List NetMiddleware → NetHandler → NetHandler
  | [], next => next
  | m :: rest, next => reduceNetLoop rest (m.Then next)

/-- Source function `reduceNetMiddleware` (httpmid.go lines 50-57). -/
def reduceNetMiddleware (middlewares : List NetMiddleware) : NetMiddleware :=
  fun next => reduceNetLoop middlewares.reverse next

/-- The manual nesting `m1(m2(...mn(h)))` that the specification uses as
the reference behavior of the reduced chain. -/
def nestMuxMiddleware : List MuxMiddleware → MuxHandler → MuxHandler
  | [], h => h
  | m :: rest, h => m (nestMuxMiddleware rest h)

/-- The manual nesting `m1(m2(...mn(h)))` for net middlewares. -/
def nestNetMiddleware : List NetMiddleware → NetHandler → NetHandler
  | [], h => h
  | m :: rest, h => m (nestNetMiddleware rest h)

/-- Source type `LastResortErrorHandler` (httperr.go line 54). -/
abbrev LastResortErrorHandler : Type := Sink → Req → GoError → Sink

/-- Source structure `Route` (httperr.go lines 57-61). -/
structure Route where
  Method : String
  Path : String
  Handler : MuxHandler

/-- One entry of the underlying router's table: the method, the path
pattern and the `http.HandlerFunc` registered for them.  The
path-matching trie of the external `httprouter` dependency is out of
scope; registration is modelled as appending to this table. -/
structure RouteEntry where
  method : String
  path : String
  handler : NetHandler

/-- Source structure `ServeMux` (httperr.go lines 72-76): its global
middleware `midl`, the configured last-resort error handler
(`conf.LastResortErrorHandler`), and the registered routes of the
underlying router. -/
structure ServeMux where
  midl : MuxMiddleware
  lastResort : LastResortErrorHandler
  routes : List RouteEntry

/-- The `http.HandlerFunc` closure that `ServeMux.Handle` registers
(httperr.go lines 115-120): run `mux.midl.Then(handler)` on the sink
and request; if the returned error is non-nil, call the last-resort
error handler with the sink, the request and that error; otherwise do
nothing more. -/
def handleClosure (midl : MuxMiddleware) (lrh : LastResortErrorHandler)
    (handler : MuxHandler) : NetHandler :=
  fun w r =>
    let res := midl.Then handler w r
    match res.2 with
    | some e => lrh res.1 r e
    | none => res.1

/-- Source method `ServeMux.Handle` (httperr.go lines 114-121). -/
def ServeMux.Handle (mux : ServeMux) (method path : String)
    (handler : MuxHandler) : ServeMux :=
  { mux with
    routes := mux.routes ++
      [{ method := method, path := path
         handler := handleClosure mux.midl mux.lastResort handler }] }

/-- Source method `ServeMux.Route` (httperr.go lines 109-111):
`mux.Handle(r.Method, r.Path, reduceMuxMiddleware(mid).Then(r.Handler))`. -/
def ServeMux.Route (mux : ServeMux) (r : Route)
    (mid : List MuxMiddleware) : ServeMux :=
  mux.Handle r.Method r.Path ((reduceMuxMiddleware mid).Then r.Handler)

theorem reduceMuxLoop_append (xs : List MuxMiddleware) (m : MuxMiddleware)
    (h : MuxHandler) :
    reduceMuxLoop (xs ++ [m]) h = m.Then (reduceMuxLoop xs h) := by
  induction xs generalizing h with
  | nil => rfl
  | cons a xs ih =>
    simp only [List.cons_append, reduceMuxLoop]
    exact ih (a.Then h)

theorem reduceMux_eq_nest (ms : List MuxMiddleware) (h : MuxHandler) :
    (reduceMuxMiddleware ms).Then h = nestMuxMiddleware ms h := by
  induction ms with
  | nil => rfl
  | cons m rest ih =>
    simp only [MuxMiddleware.Then, reduceMuxMiddleware, List.reverse_cons,
      nestMuxMiddleware] at *
    rw [reduceMuxLoop_append]
    simp only [MuxMiddleware.Then]
    rw [ih]

theorem reduceNetLoop_append (xs : List NetMiddleware) (m : NetMiddleware)
    (h : NetHandler) :
    reduceNetLoop (xs ++ [m]) h = m.Then (reduceNetLoop xs h) := by
  induction xs generalizing h with
  | nil => rfl
  | cons a xs ih =>
    simp only [List.cons_append, reduceNetLoop]
    exact ih (a.Then h)

theorem reduceNet_eq_nest (ms : List NetMiddleware) (h : NetHandler) :
    (reduceNetMiddleware ms).Then h = nestNetMiddleware ms h := by
  induction ms with
  | nil => rfl
  | cons m rest ih =>
    simp only [NetMiddleware.Then, reduceNetMiddleware, List.reverse_cons,
      nestNetMiddleware] at *
    rw [reduceNetLoop_append]
    simp only [NetMiddleware.Then]
    rw [ih]

/-- Claim C5: for every list of middlewares and every handler, the
reduced chain applied to the handler is equal — as a function, hence
with identical behavior and side-effect order on every sink and
request — to the manual nesting `m1(m2(...mn(h)))`, and the empty-list
reduction applied to the handler is the handler itself; this holds for
both the mux-middleware kind (`reduceMuxMiddleware` over
error-returning handlers) and the net-middleware kind
(`reduceNetMiddleware` over raw handlers). -/
theorem claim5_reduce_equals_manual_nesting (ms : List MuxMiddleware)
    (h : MuxHandler) (ns : List NetMiddleware) (g : NetHandler) :
    (reduceMuxMiddleware ms).Then h = nestMuxMiddleware ms h ∧
    (reduceNetMiddleware ns).Then g = nestNetMiddleware ns g ∧
    (reduceMuxMiddleware []).Then h = h ∧
    (reduceNetMiddleware []).Then g = g :=
  ⟨reduceMux_eq_nest ms h, reduceNet_eq_nest ns g, rfl, rfl⟩

/-- Claim C6: registering a route through `ServeMux.Route` with
route-specific middlewares appends exactly one entry to the route
table — every previously registered route is untouched — and the
handler stored for the new route is the dispatch closure whose chain
is the global middleware applied outside the manual nesting of the
route-specific middlewares applied outside the route's handler
(global outermost, then route-specific, then the handler). -/
theorem claim6_route_registration (mux : ServeMux) (rt : Route)
    (mid : List MuxMiddleware) :
    (mux.Route rt mid).routes =
      mux.routes ++
        [{ method := rt.Method, path := rt.Path
           handler := handleClosure mux.midl mux.lastResort
             (nestMuxMiddleware mid rt.Handler) }] := by
  simp only [ServeMux.Route, ServeMux.Handle]
  rw [reduceMux_eq_nest]

/-- Claim C4: for every global middleware, last-resort handler,
route-specific middleware list, handler, sink and request, the
dispatch closure registered for the route behaves as follows: run the
full chain (global middleware wrapping the nested route-specific
middlewares wrapping the handler) on the sink and request; when the
chain's error is `some e` — resolved or not — the result is exactly
one invocation of the last-resort handler with the post-chain sink,
the request, and `e`; when the chain's error is `none` the result is
the post-chain sink, with no last-resort invocation. -/
theorem claim4_last_resort_exactly_once (midl : MuxMiddleware)
    (lrh : LastResortErrorHandler) (mid : List MuxMiddleware)
    (hd : MuxHandler) (w : Sink) (r : Req) :
    handleClosure midl lrh ((reduceMuxMiddleware mid).Then hd) w r =
      Option.elim (midl.Then (nestMuxMiddleware mid hd) w r).2
        (midl.Then (nestMuxMiddleware mid hd) w r).1
        (fun e => lrh (midl.Then (nestMuxMiddleware mid hd) w r).1 r e) := by
  rw [reduceMux_eq_nest]
  simp only [handleClosure]
  cases hres : midl.Then (nestMuxMiddleware mid hd) w r with
  | mk w2 err => cases err <;> rfl

/-- Claim C3: on an uncommitted recorder, a status write — explicit
`WriteHeader code`, or implicit through the first body write, which
commits with status 200 — sets the recorded status code and the
committed timestamp together; and after either commit every further
`WriteHeader` call is a no-op, leaving the whole recorder state
(recorded status, committed timestamp, and the underlying sink, to
which nothing is forwarded) unchanged. -/
theorem claim3_status_commit_once (l : logEntryRecorder)
    (code now now2 code2 : Int) (b : List Nat)
    (h1 : l.log.RespondedAt ≤ 0) (h2 : 0 < now) :
    (l.WriteHeader code now).log.StatusCode = code ∧
    (l.WriteHeader code now).log.RespondedAt = now ∧
    (l.WriteHeader code now).WriteHeader code2 now2 = l.WriteHeader code now ∧
    ((l.Write b now).1).WriteHeader code2 now2 = (l.Write b now).1 := by
  have hno : ¬ l.log.RespondedAt > 0 := by omega
  refine ⟨?_, ?_, ?_, ?_⟩
  · simp [logEntryRecorder.WriteHeader, hno]
  · simp [logEntryRecorder.WriteHeader, hno]
  · simp [logEntryRecorder.WriteHeader, hno, h2]
  · have hres : (l.Write b now).1.log.RespondedAt = now := by
      simp only [logEntryRecorder.Write, Sink.write, byteBufferWrite,
        logEntryRecorder.WriteHeader, hno, if_neg, if_pos h1, ite_false]
      cases hd : l.log.DiscardReqBody <;> simp [hd]
    simp [logEntryRecorder.WriteHeader, hres, h2]

/-- Claim C7: when the handler performs a body write on an uncommitted
recorder, the recorded status code defaults to 200 at that moment,
the committed timestamp is set at the same moment, and the underlying
sink receives the forwarded status write 200 immediately followed by
the forwarded body bytes. -/
theorem claim7_implicit_status_200 (l : logEntryRecorder) (b : List Nat)
    (now : Int) (h1 : l.log.RespondedAt ≤ 0) (h2 : 0 < now) :
    (l.Write b now).1.log.StatusCode = 200 ∧
    (l.Write b now).1.log.RespondedAt = now ∧
    (l.Write b now).1.sink.events =
      l.sink.events ++ [SinkEvent.header 200, SinkEvent.body b] := by
  have hno : ¬ l.log.RespondedAt > 0 := by omega
  refine ⟨?_, ?_, ?_⟩ <;>
  · simp only [logEntryRecorder.Write, Sink.write, byteBufferWrite,
      logEntryRecorder.WriteHeader, Sink.writeHeader, hno, if_pos h1,
      ite_false]
    cases hd : l.log.DiscardReqBody <;> simp [hd]

/-- Claim C1, evaluated at the failing input: a recorder whose LogEntry
has `DiscardReqBody = true` and `DiscardResBody = false` (so
response-body capture is NOT flagged discarded).  The handler writes
the bytes "hi" (104, 105).  The write is forwarded to the real sink,
but because `logEntryRecorder.Write` tests `DiscardReqBody` instead of
`DiscardResBody` before appending, the response-body accessor yields
the empty byte string instead of the written bytes — contradicting the
claim and the source's own documentation of the discard flags. -/
theorem claim1_discard_flag_bug_eval :
    (⟨⟨0, 0, 5, true, false, [], []⟩, ⟨[]⟩⟩ :
        logEntryRecorder).log.DiscardResBody = false ∧
    ((⟨⟨0, 0, 5, true, false, [], []⟩, ⟨[]⟩⟩ :
        logEntryRecorder).Write [104, 105] 7).1.log.ResBody = [] ∧
    ((⟨⟨0, 0, 5, true, false, [], []⟩, ⟨[]⟩⟩ :
        logEntryRecorder).Write [104, 105] 7).1.sink.events =
      [SinkEvent.header 200, SinkEvent.body [104, 105]] ∧
    ([] : List Nat) ≠ [104, 105] := by decide

/-- Claim C9: checking a recorder out of the pool resets every mutable
LogEntry field regardless of the stale state left by a previous
request: the result is independent of the stale recorder, its status
code and committed timestamp are 0, both discard flags are false, both
body buffers are fresh cleared buffers from the byte-buffer pool, the
received timestamp is set anew, and the sink is the new request's
writer — so the new request can observe nothing of the previous one. -/
theorem claim9_checkout_resets_all_fields (staleA staleB : logEntryRecorder)
    (w : Sink) (now : Int) :
    newLogEntryRecorder staleA w now = newLogEntryRecorder staleB w now ∧
    (newLogEntryRecorder staleA w now).log =
      { StatusCode := 0, RespondedAt := 0, RequestedAt := now
        DiscardReqBody := false, DiscardResBody := false
        reqBody := [], resBody := [] } ∧
    (newLogEntryRecorder staleA w now).sink = w :=
  ⟨rfl, rfl, rfl⟩

theorem getLogEntry_wrapLayers (k : Nat) (w : RespWriter) :
    GetLogEntry (wrapLayers k w) = GetLogEntry w := by
  induction k with
  | zero => rfl
  | succ k ih => simpa [wrapLayers, GetLogEntry] using ih

theorem getLogEntry_none_of_no_recorder (w : RespWriter)
    (h : hasRecorderInChain w = false) : GetLogEntry w = (none, false) := by
  induction w with
  | plain s => rfl
  | recorder rec => simp [hasRecorderInChain] at h
  | wrapper inner ih => exact ih (by simpa [hasRecorderInChain] using h)

/-- Claim C8: for a response sink made of any finite number of
unwrap-capable wrapper layers around the recorder, `GetLogEntry`
returns the recorder's LogEntry and `true`; for a sink whose unwrap
chain contains no recorder it returns `(nil, false)`; and two lookups
on the same sink return the same LogEntry both times (`GetLogEntry`
is a pure function of the immutable wrapper chain). -/
theorem claim8_lookup_through_wrappers (k : Nat) (rec : logEntryRecorder)
    (w : RespWriter) (h : hasRecorderInChain w = false) :
    GetLogEntry (wrapLayers k (.recorder rec)) = (some rec.log, true) ∧
    GetLogEntry w = (none, false) ∧
    (GetLogEntry (wrapLayers k (.recorder rec)),
      GetLogEntry (wrapLayers k (.recorder rec))).1 =
    (GetLogEntry (wrapLayers k (.recorder rec)),
      GetLogEntry (wrapLayers k (.recorder rec))).2 :=
  ⟨getLogEntry_wrapLayers k (.recorder rec),
   getLogEntry_none_of_no_recorder w h, rfl⟩

/-- Claim C10: when the underlying request-body reader delivers n > 0
bytes together with a non-nil error (for example io.EOF with the final
bytes) and request-body capture is not discarded, the recorder's
`Read` returns those n bytes with a nil error — the underlying error
is replaced by the buffer append's result `(n, nil)` — and the bytes
are appended to the request-body buffer; a call on which the
underlying reader returns zero bytes propagates the underlying error
unchanged. -/
theorem claim10_read_defers_error (l : logEntryRecorder) (data : List Nat)
    (uerr : Option GoError) (h1 : l.log.DiscardReqBody = false)
    (h2 : data ≠ []) :
    l.Read data uerr =
      ({ l with log := { l.log with reqBody := l.log.reqBody ++ data } },
        data.length, none) ∧
    l.Read [] uerr = (l, 0, uerr) := by
  constructor
  · have hlen : 0 < data.length := List.length_pos.mpr h2
    simp [logEntryRecorder.Read, byteBufferWrite, h1, hlen]
  · simp [logEntryRecorder.Read]

/-- Claim C2, counterexample: the claim as stated — the original error
is recoverable from `ResolveError e` via standard error-chain
unwrapping (and the message passes through) — is false at the concrete
error `base "boom"`: the wrapper's standard unwrap chain is just the
wrapper itself, because `*ResolvedError` declares no `Unwrap` method,
so the original error does not occur in it. -/
theorem claim2_unwrap_counterexample :
    ¬ (GoError.base "boom" ∈ unwrapChain (ResolveError (GoError.base "boom")) ∧
       (ResolveError (GoError.base "boom")).msg = (GoError.base "boom").msg) := by
  decide

/-- Claim C2, amended: for every error e, `ResolveError e` is a wrapper
whose `Error()` message equals e's message exactly (no information
loss), and from which e is recoverable through the wrapper's exported
`Err` field — the way the repository itself inspects it, with
`errors.As` targeting `*ResolvedError` and then reading `Err` — but
not via standard error-chain unwrapping: `errors.Unwrap` on the
wrapper yields nil. -/
theorem claim2_resolved_error_amended (e : GoError) :
    asResolvedError (ResolveError e) = some e ∧
    (ResolveError e).msg = e.msg ∧
    errorsUnwrap (ResolveError e) = none :=
  ⟨rfl, rfl, rfl⟩

/-- Witness for C3 at a concrete uncommitted recorder: first status
write 201 at time 7 commits both fields; later `WriteHeader 500` at
time 9 is a no-op, both after the explicit commit and after an
implicit commit through a body write. -/
theorem claim3_status_commit_once_witness :
    ((⟨⟨0, 0, 3, false, false, [], []⟩, ⟨[]⟩⟩ :
        logEntryRecorder).WriteHeader 201 7).log.StatusCode = 201 ∧
    ((⟨⟨0, 0, 3, false, false, [], []⟩, ⟨[]⟩⟩ :
        logEntryRecorder).WriteHeader 201 7).log.RespondedAt = 7 ∧
    ((⟨⟨0, 0, 3, false, false, [], []⟩, ⟨[]⟩⟩ :
        logEntryRecorder).WriteHeader 201 7).WriteHeader 500 9 =
      (⟨⟨0, 0, 3, false, false, [], []⟩, ⟨[]⟩⟩ :
        logEntryRecorder).WriteHeader 201 7 ∧
    (((⟨⟨0, 0, 3, false, false, [], []⟩, ⟨[]⟩⟩ :
        logEntryRecorder).Write [1, 2] 7).1).WriteHeader 500 9 =
      ((⟨⟨0, 0, 3, false, false, [], []⟩, ⟨[]⟩⟩ :
        logEntryRecorder).Write [1, 2] 7).1 :=
  claim3_status_commit_once ⟨⟨0, 0, 3, false, false, [], []⟩, ⟨[]⟩⟩
    201 7 9 500 [1, 2] (by decide) (by decide)

/-- Witness for C7 at a concrete uncommitted recorder: the first body
write "hi" at time 7 records status 200 and timestamp 7 and forwards
the status write and the body to the sink in order. -/
theorem claim7_implicit_status_200_witness :
    ((⟨⟨0, 0, 3, false, false, [], []⟩, ⟨[]⟩⟩ :
        logEntryRecorder).Write [104, 105] 7).1.log.StatusCode = 200 ∧
    ((⟨⟨0, 0, 3, false, false, [], []⟩, ⟨[]⟩⟩ :
        logEntryRecorder).Write [104, 105] 7).1.log.RespondedAt = 7 ∧
    ((⟨⟨0, 0, 3, false, false, [], []⟩, ⟨[]⟩⟩ :
        logEntryRecorder).Write [104, 105] 7).1.sink.events =
      (⟨⟨0, 0, 3, false, false, [], []⟩, ⟨[]⟩⟩ :
        logEntryRecorder).sink.events ++
        [SinkEvent.header 200, SinkEvent.body [104, 105]] :=
  claim7_implicit_status_200 ⟨⟨0, 0, 3, false, false, [], []⟩, ⟨[]⟩⟩
    [104, 105] 7 (by decide) (by decide)

/-- Witness for C8 at a concrete recorder under two wrapper layers, and
a concrete recorder-free chain of one wrapper over a plain writer. -/
theorem claim8_lookup_through_wrappers_witness :
    GetLogEntry (wrapLayers 2 (.recorder
        ⟨⟨0, 0, 3, false, false, [], []⟩, ⟨[]⟩⟩)) =
      (some (⟨⟨0, 0, 3, false, false, [], []⟩, ⟨[]⟩⟩ :
        logEntryRecorder).log, true) ∧
    GetLogEntry (.wrapper (.plain ⟨[]⟩)) = (none, false) ∧
    (GetLogEntry (wrapLayers 2 (.recorder
        ⟨⟨0, 0, 3, false, false, [], []⟩, ⟨[]⟩⟩)),
      GetLogEntry (wrapLayers 2 (.recorder
        ⟨⟨0, 0, 3, false, false, [], []⟩, ⟨[]⟩⟩))).1 =
    (GetLogEntry (wrapLayers 2 (.recorder
        ⟨⟨0, 0, 3, false, false, [], []⟩, ⟨[]⟩⟩)),
      GetLogEntry (wrapLayers 2 (.recorder
        ⟨⟨0, 0, 3, false, false, [], []⟩, ⟨[]⟩⟩))).2 :=
  claim8_lookup_through_wrappers 2 ⟨⟨0, 0, 3, false, false, [], []⟩, ⟨[]⟩⟩
    (.wrapper (.plain ⟨[]⟩)) (by decide)

/-- Witness for C10 at a concrete recorder: the underlying reader
delivers the byte 9 together with an EOF-like error; the recorder
returns those bytes with a nil error and appends them to the
request-body buffer; a subsequent zero-byte read propagates the
error. -/
theorem claim10_read_defers_error_witness :
    (⟨⟨0, 0, 3, false, false, [], []⟩, ⟨[]⟩⟩ :
        logEntryRecorder).Read [9] (some (.base "EOF")) =
      (⟨⟨0, 0, 3, false, false, [9], []⟩, ⟨[]⟩⟩, 1, none) ∧
    (⟨⟨0, 0, 3, false, false, [], []⟩, ⟨[]⟩⟩ :
        logEntryRecorder).Read [] (some (.base "EOF")) =
      (⟨⟨0, 0, 3, false, false, [], []⟩, ⟨[]⟩⟩, 0,
        some (.base "EOF")) :=
  claim10_read_defers_error ⟨⟨0, 0, 3, false, false, [], []⟩, ⟨[]⟩⟩
    [9] (some (.base "EOF")) (by decide) (by decide)
